import Mathlib

/-!
Verification of the audit-api crawl-and-classify engine
(`src/routes/audit_script.js`, `src/routes/article_audit.js`).

The JavaScript source is shallowly embedded: pure string algorithms are
translated directly; every outbound HTTP request (axios) and every DOM
query (cheerio) is modelled by an explicit outcome value supplied by an
oracle, so each function consumes exactly the data the source reads from
the network / DOM.  JS `undefined` (constructor `absent`) / `null` / values are distinguished by
the `JsVal` type where the distinction is observable.
-/

set_option maxRecDepth 8000
set_option maxHeartbeats 1000000

namespace Audit

/-! ## Basic string helpers (JS semantics on `List Char`) -/

/-- `strLead p cs` : does the char list `cs` start with `p`? -/
def strLead : List Char → List Char → Bool
  | [], _ => true
  | _ :: _, [] => false
  | p :: ps, c :: cs => p == c && strLead ps cs

/-- JS `s.startsWith(p)`. -/
def strStarts (s p : String) : Bool := strLead p.data s.data

def inclAux (p : List Char) : List Char → Bool
  | [] => strLead p []
  | c :: cs => strLead p (c :: cs) || inclAux p cs

/-- JS `s.includes(sub)` (substring containment). -/
def strIncl (s sub : String) : Bool := inclAux sub.data s.data

def splitChAux (sep : Char) : List Char → List (List Char)
  | [] => [[]]
  | c :: cs =>
    match splitChAux sep cs with
    | [] => [[]]
    | h :: t => if c == sep then [] :: h :: t else (c :: h) :: t

/-- JS `s.split(sep)` for a one-character separator (`""` splits to `[""]`). -/
def splitCh (sep : Char) (s : String) : List String :=
  (splitChAux sep s.data).map String.mk

def squishAux : List Char → List Char
  | [] => []
  | c :: cs =>
    let rest := squishAux cs
    if c.isWhitespace then
      match rest with
      | ' ' :: ds => ' ' :: ds
      | ds => ' ' :: ds
    else c :: rest

/-- JS `s.replace(/\s+/g, ' ')`: collapse whitespace runs to one space. -/
def collapseWs (s : String) : String := String.mk (squishAux s.data)

def trimChars (cs : List Char) : List Char :=
  ((cs.dropWhile Char.isWhitespace).reverse.dropWhile Char.isWhitespace).reverse

/-- JS `s.trim()`. -/
def myTrim (s : String) : String := String.mk (trimChars s.data)

/-- JS `s.toLowerCase()` (ASCII range, which is all the source uses). -/
def myToLower (s : String) : String := String.mk (s.data.map Char.toLower)

/-- JS `msg || default` for strings (empty string is falsy). -/
def jsOr (s d : String) : String := if s = "" then d else s

def afterDigits : List Char → Bool
  | [] => false
  | c :: cs => if c.isDigit then afterDigits cs else c == '/'

/-- Matches the regex `\d+\/` at the head of the list. -/
def digitRunSlash : List Char → Bool
  | [] => false
  | c :: cs => c.isDigit && afterDigits cs

/-- Scan for the regex `\/cruises\/\d+\/` anywhere in the list. -/
def cruiseDeepAux : List Char → Bool
  | [] => false
  | c :: cs =>
    (strLead "/cruises/".data (c :: cs) && digitRunSlash ((c :: cs).drop 9))
      || cruiseDeepAux cs

/-- Scan for the regex `\/\d+\/` anywhere in the list. -/
def slashNumSlashAux : List Char → Bool
  | [] => false
  | c :: cs => (c == '/' && digitRunSlash cs) || slashNumSlashAux cs

/-- First match of `\/tours\/(\d+)`: the captured digit run. -/
def toursIdCapture : List Char → Option String
  | [] => none
  | c :: cs =>
    if strLead "/tours/".data (c :: cs) then
      let ds := ((c :: cs).drop 7).takeWhile Char.isDigit
      if ds = [] then toursIdCapture cs else some (String.mk ds)
    else toursIdCapture cs

def natOfDigits (cs : List Char) : Nat :=
  cs.foldl (fun n c => n * 10 + (c.toNat - 48)) 0

/-- JS `parseFloat` restricted to strings of digits and dots (which is what the
source feeds it after `replace(/[^\d.]/g, '')`); `none` models `NaN`.
JS numbers are IEEE doubles; the amounts compared here are small and exact,
so `ℚ` is used. -/
def parseFloatQ (cs : List Char) : Option ℚ :=
  let ip := cs.takeWhile Char.isDigit
  let rest := cs.drop ip.length
  match rest with
  | '.' :: r =>
    let fp := r.takeWhile Char.isDigit
    if ip = [] && fp = [] then none
    else some ((natOfDigits ip : ℚ) + (natOfDigits fp : ℚ) / (10 : ℚ) ^ fp.length)
  | _ => if ip = [] then none else some (natOfDigits ip : ℚ)

/-- JS `text.lastIndexOf(' ', fromIdx)`: greatest index `≤ fromIdx` holding a
space; `none` models `-1`.  `i0` is the index of the head of the list. -/
def lastSpaceAux : List Char → Nat → Nat → Option Nat → Option Nat
  | [], _, _, acc => acc
  | c :: cs, i0, fromIdx, acc =>
    if fromIdx < i0 then acc
    else lastSpaceAux cs (i0 + 1) fromIdx (if c == ' ' then some i0 else acc)

/-! ## JS value wrapper: `absent` models JS `undefined`, `null` models JS `null`. -/

inductive JsVal (α : Type) where
  | absent
  | null
  | val (a : α)
deriving DecidableEq, Repr, Inhabited

def jsOfOpt {α : Type} : Option α → JsVal α
  | some a => .val a
  | none => .absent

/-! ## URL parsing and the URL Categorizer (`categorizeUrl`) -/

structure UrlParts where
  scheme : String
  hostname : String
  pathname : String
deriving DecidableEq, Repr, Inhabited

/-- Models `new URL(s)` of WHATWG for plain absolute `http(s)` URLs (no
userinfo/port), the only shapes the audit handles; anything else is a parse
failure, which the source maps to `invalid-url`. -/
def parseUrl (s : String) : Option UrlParts :=
  let rest : Option (String × List Char) :=
    if strStarts s "https://" then some ("https", s.data.drop 8)
    else if strStarts s "http://" then some ("http", s.data.drop 7)
    else none
  match rest with
  | none => none
  | some (scheme, cs) =>
    let host := cs.takeWhile (fun c => !(c == '/' || c == '?' || c == '#'))
    if host = [] then none
    else
      let tail := cs.drop host.length
      let path := tail.takeWhile (fun c => !(c == '?' || c == '#'))
      some ⟨scheme, String.mk (host.map Char.toLower),
        if path = [] then "/" else String.mk path⟩

/-- JS `path.replace(/^\/|\/$/g, '')`: removes one leading and one trailing
slash (the `^`/`$` anchors make at most one match each). -/
def cleanPathOf (path : String) : String :=
  let s1 := if strStarts path "/" then String.mk (path.data.drop 1) else path
  match s1.data.getLast? with
  | some '/' => String.mk s1.data.dropLast
  | _ => s1

def segmentsOf (cp : String) : List String := splitCh '/' cp

def lastSegmentOf (segs : List String) : String := (segs.getLast?).getD ""

def contactKeywords : List String := ["contact", "contact-us", "get-in-touch"]
def wrongContactKeywords : List String := ["contactt"]
def specialKeywords : List String :=
  ["land-tours", "ships", "videos", "myTrips", "tours", "cruises", "hotels",
   "deals", "info", "articles", "stories"]
def nonDestinationKeywords : List String :=
  ["articles", "stories", "deals", "tours", "cruises", "operators", "forms"]

def wrongContactHit (cp : String) : Bool := wrongContactKeywords.any (fun k => strIncl cp k)
def contactHit (cp : String) : Bool := contactKeywords.any (fun k => strIncl cp k)
/-- Regex `^cruises\/\d+\//` on the clean path. -/
def cruiseShipHit (cp : String) : Bool := strStarts cp "cruises/" && digitRunSlash (cp.data.drop 8)
/-- Regex `\/cruises\/\d+\//` on the clean path. -/
def cruiseDeepHit (cp : String) : Bool := cruiseDeepAux cp.data
def specialHit (segs : List String) : Bool := specialKeywords.contains (lastSegmentOf segs)
def articlesHit (segs : List String) : Bool := segs.contains "articles" && segs.length > 1
def storiesDeepHit (segs : List String) : Bool := segs.contains "stories" && segs.length > 1
def storiesTopHit (segs : List String) : Bool :=
  (lastSegmentOf segs == "stories") && segs.length == 1
def operatorsHit (cp : String) : Bool := strStarts cp "operators/" && slashNumSlashAux cp.data
def toursHit (cp : String) : Bool := strIncl cp "/tours/"

/-- The tours sub-rule: `segments.indexOf('tours')` is not last, and the
following segment satisfies `/\d+/.test` — i.e. CONTAINS a digit. -/
def toursIdCond (segs : List String) : Bool :=
  match segs.findIdx? (· == "tours") with
  | some i => decide (i < segs.length - 1) && ((segs.getD (i + 1) "").data.any Char.isDigit)
  | none => false

def isDestinationPath (segs : List String) : Bool :=
  !(segs.any (fun s => nonDestinationKeywords.contains s))

/-- The ordered rule chain of `categorizeUrl` after a successful URL parse
(src/routes/audit_script.js lines 10–89). -/
def categorizeParsed (host path : String) : String :=
  if !(host == "www.adventure-life.com") && !(host == "adventure-life.com") then
    "external-link"
  else
    let cp := cleanPathOf path
    let segs := segmentsOf cp
    if wrongContactHit cp then "wrong-contact-path"
    else if contactHit cp then "contact-page"
    else if cruiseShipHit cp then "cruise-ship"
    else if cruiseDeepHit cp then "cruise-with-id"
    else if specialHit segs then "destination-special-page"
    else if articlesHit segs then "multi-level/articles/article-name"
    else if storiesDeepHit segs then "multi-level/stories/story-name"
    else if storiesTopHit segs then "multi-level/stories"
    else if operatorsHit cp then "operator-with-id"
    else if toursHit cp then
      (if toursIdCond segs then "tour-with-id" else "tour-activity")
    else if isDestinationPath segs then "multi-level/destination-" ++ toString segs.length
    else "other"

def categorizeUrl (url : String) : String :=
  match parseUrl url with
  | some u => categorizeParsed u.hostname u.pathname
  | none => "invalid-url"

/-- Modelled from the claim's words (C3): a `/tours/...` path whose segment
immediately after `tours` is PURELY numeric should be `tour-with-id`,
otherwise `tour-activity`.  Used only to compare against `categorizeUrl`. -/
def specToursCategory (url : String) : String :=
  match parseUrl url with
  | none => "invalid-url"
  | some u =>
    let segs := segmentsOf (cleanPathOf u.pathname)
    match segs.findIdx? (· == "tours") with
    | some i =>
      let nxt := segs.getD (i + 1) ""
      if !(nxt == "") && nxt.data.all Char.isDigit then "tour-with-id" else "tour-activity"
    | none => "tour-activity"

/-! ## Text truncation (`truncate` inside `extractLinks`) -/

/-- `truncate(text, max = 120)` from src/routes/audit_script.js lines
1072–1075 (the source only ever calls it with the default `max`).
`substring(0, -1)` in JS is the empty string, so a spaceless long text
collapses to just `"..."`. -/
def truncate (text : String) : String :=
  if text.length ≤ 120 then text
  else
    match lastSpaceAux text.data 0 120 none with
    | some i => String.mk (text.data.take i) ++ "..."
    | none => "..."

/-! ## Ship-name normalization and matching
(nested inside `checkCruiseShipAvailability`, lines 854–888) -/

def marineLeads : List String := ["m/c", "m.c.", "mc", "m.s.", "ms", "m.v.", "mv"]

/-- The regex `^(m\/c|m\.c\.|mc|m\.s\.|ms|m\.v\.|mv)\s*` replace: the regex
engine takes the first alternative matching at position 0. -/
def stripMarine (s : String) : String :=
  match marineLeads.find? (fun p => strStarts s p) with
  | some p => String.mk ((s.data.drop p.length).dropWhile Char.isWhitespace)
  | none => s

def shipCharMap (c : Char) : Char :=
  if c == '&' || c == '+' || c == '-' || c == '_' || c == '/' || c == '.' then ' ' else c

/-- JS `\w` or whitespace (kept by `replace(/[^\w\s]/g, '')`). -/
def isWordOrSpace (c : Char) : Bool := c.isAlphanum || c == '_' || c.isWhitespace

def normalizeShipName (text : String) : String :=
  let s1 := myToLower text
  let s2 := stripMarine s1
  let s3 := String.mk (s2.data.map shipCharMap)
  let s4 := String.mk (s3.data.filter isWordOrSpace)
  myTrim (collapseWs s4)

/-- `matchCount / minWords >= 0.6` is the exact rational comparison
`5 * matchCount ≥ 3 * minWords` (the operands are small integers). -/
def shipNamesMatch (urlName optionName : String) : Bool :=
  let nu := normalizeShipName urlName
  let no := normalizeShipName optionName
  if nu == no then true
  else if strIncl no nu || strIncl nu no then true
  else
    let urlWords := (splitCh ' ' nu).filter (fun w => w.length > 2)
    let optionWords := (splitCh ' ' no).filter (fun w => w.length > 2)
    let minWords := min urlWords.length optionWords.length
    if minWords == 0 then false
    else
      let matchCount :=
        (urlWords.filter (fun uw => optionWords.any (fun ow => strIncl ow uw || strIncl uw ow))).length
      decide (5 * matchCount ≥ 3 * minWords)

/-- The activity/experience-option normalizer nested inside
`checkTourActivityAvailability` (lines 763–771). -/
def normalizeForComparison (text : String) : String :=
  let s1 := myToLower text
  let s2 := String.mk (s1.data.filter (fun c => !(c == '&' || c == '+')))
  let s3 := String.mk (s2.data.map (fun c => if c == '-' then ' ' else c))
  myTrim (collapseWs s3)

/-- 130 copies of `A`: the spaceless over-long text from the spec's example. -/
def stringOfAs : String := String.mk (List.replicate 130 'A')

/-- A 121-character text with a space at index 60. -/
def sampleLongText : String :=
  String.mk (List.replicate 60 'a' ++ ' ' :: List.replicate 60 'b')

/-! ## Section Detector (`detectSectionType` / `getSectionTitle`)

A DOM element is modelled by the data these functions read: its `class`
attribute and, for title lookup, the text of the first `h2` / `h3` inside
its `.al-sec-title` sub-container (`""` when the section has none — an
element with empty text and a missing element behave identically here,
since the code checks truthiness of the trimmed text).  An element is
handled together with its ancestor chain, self first. -/

structure AncNode where
  classes : String
  secTitleH2 : String
  secTitleH3 : String
deriving DecidableEq, Repr, Inhabited

/-- jQuery-style class-token test used by `closest('.cls')`. -/
def hasClass (cls : String) (n : AncNode) : Bool :=
  (splitCh ' ' n.classes).contains cls

def knownSections : List String :=
  ["al-sec-four", "al-sec-table", "al-sec-sumtiles",
   "al-sec-articles", "al-sec-stories", "al-sec-video",
   "al-sec-faqs", "al-sec-text", "al-sec-tiles"]

/-- The per-node search of the ancestor walk: if the class attribute
contains `al-sec-`, the first class token starting with `al-sec-` that is
not a title/content/base variant. -/
def findSecClass (n : AncNode) : Option String :=
  if strIncl n.classes "al-sec-" then
    (splitCh ' ' n.classes).find? (fun cls =>
      strStarts cls "al-sec-" && !(cls == "al-sec-title")
        && !(cls == "al-sec-content") && !(cls == "al-sec"))
  else none

/-- The bounded ancestor walk (levels `0..14`), returning the first node
carrying a real section class. -/
def walkSecNode : List AncNode → Option AncNode
  | [] => none
  | n :: rest =>
    match findSecClass n with
    | some _ => some n
    | none => walkSecNode rest

/-- `detectSectionType` (lines 92–151), on the chain element-then-ancestors. -/
def detectSectionType (chain : List AncNode) : String :=
  if chain.any (hasClass "al-intro") then "intro"
  else
    match walkSecNode (chain.take 15) with
    | some n =>
      match findSecClass n with
      | some sectionClass => String.mk (sectionClass.data.drop 7)
      | none => "unknown"
    | none =>
      match knownSections.find? (fun sc => chain.any (hasClass sc)) with
      | some sc => String.mk (sc.data.drop 7)
      | none => "unknown"

def nonEmptyTrim (s : String) : Option String :=
  let t := myTrim s
  if t = "" then none else some t

/-- `getSectionTitle` (lines 154–214). -/
def getSectionTitle (chain : List AncNode) : Option String :=
  if chain.any (hasClass "al-intro") then some "Introduction Section"
  else
    match walkSecNode (chain.take 15) with
    | none => none
    | some n =>
      match nonEmptyTrim n.secTitleH2 with
      | some t => some t
      | none =>
        match nonEmptyTrim n.secTitleH3 with
        | some t => some t
        | none => none

/-! ## Validators

One axios GET per validator call: the outcome of that GET is the input.
With `validateStatus: P`, axios resolves when `P status` holds (the
response's `config.url` is the requested URL) and rejects otherwise with
`error.response.status` set and message `Request failed with status code s`;
network errors / timeouts reject with no response. -/

inductive FetchOutcome where
  | response (status : Nat) (location : Option String)
  | netError (msg : String)
deriving DecidableEq, Repr

structure ValidationResult where
  valid : Bool
  status : Nat
  resolvedUrl : Option String
  redirected : Bool
  error : Option String
deriving DecidableEq, Repr, Inhabited

def redirectCodes : List Nat := [301, 302, 303, 307, 308]

def axiosHttpErrMsg (s : Nat) : String := "Request failed with status code " ++ toString s

/-- The shared body of the seven identical audit_script validators
(`validateDestinationLink`, `validateTourActivityLink`,
`validateTourWithIdLink`, `validateCruiseShipLink`,
`validateDestinationSpecialPageLink`, `validateStoryLink`,
`validateContactPageLink`): `validateStatus: (status) => status === 200`,
`maxRedirects: 0`. -/
def validateOnly200 (url : String) (o : FetchOutcome) : ValidationResult :=
  match o with
  | .response s loc =>
    if s == 200 then ⟨true, s, some url, false, none⟩
    else if redirectCodes.contains s then
      ⟨false, s, loc, true, some ("Redirected to: " ++ loc.getD "undefined")⟩
    else ⟨false, s, some url, false, some (axiosHttpErrMsg s)⟩
  | .netError msg => ⟨false, 0, some url, false, some (jsOr msg "Request failed")⟩

def validateDestinationLink : String → FetchOutcome → ValidationResult := validateOnly200
def validateTourActivityLink : String → FetchOutcome → ValidationResult := validateOnly200
def validateTourWithIdLink : String → FetchOutcome → ValidationResult := validateOnly200
def validateCruiseShipLink : String → FetchOutcome → ValidationResult := validateOnly200
def validateDestinationSpecialPageLink : String → FetchOutcome → ValidationResult := validateOnly200
def validateStoryLink : String → FetchOutcome → ValidationResult := validateOnly200
def validateContactPageLink : String → FetchOutcome → ValidationResult := validateOnly200

/-- `validateWrongContactPathLink` (lines 627–664): forces `valid:false`
even on HTTP 200, with misspelling-flagging error strings. -/
def validateWrongContactPathLink (url : String) (o : FetchOutcome) : ValidationResult :=
  match o with
  | .response s loc =>
    if s == 200 then
      ⟨false, s, some url, false,
        some "Wrong contact path detected - should probably be /contact instead of /contactt"⟩
    else if redirectCodes.contains s then
      ⟨false, s, loc, true,
        some ("Wrong contact path + redirected to: " ++ loc.getD "undefined")⟩
    else
      ⟨false, s, some url, false,
        some ("Wrong contact path (/contactt) + " ++ axiosHttpErrMsg s)⟩
  | .netError msg =>
    ⟨false, 0, some url, false,
      some ("Wrong contact path (/contactt) + " ++ jsOr msg "Request failed")⟩

/-- `validateExternalLink` (lines 667–703): same only-200 policy, 10s
timeout, external-specific messages. -/
def validateExternalLink (url : String) (o : FetchOutcome) : ValidationResult :=
  match o with
  | .response s loc =>
    if s == 200 then ⟨true, s, some url, false, none⟩
    else if redirectCodes.contains s then
      ⟨false, s, loc, true,
        some ("External link redirected to: " ++ loc.getD "undefined")⟩
    else ⟨false, s, some url, false, some (axiosHttpErrMsg s)⟩
  | .netError msg => ⟨false, 0, some url, false, some (jsOr msg "External link request failed")⟩

namespace ArticleAudit

/-- The shared body of the seven verbatim-identical validators in
src/routes/article_audit.js (`validateDestinationLink`,
`validateTourActivityLink`, `validateTourWithIdLink`,
`validateCruiseShipLink`, `validateDestinationSpecialPageLink`,
`validateStoryLink`, `validateContactPageLink`, lines 338–609): they differ
from the audit_script versions in one place —
`validateStatus: (status) => status >= 200 && status < 400` — so any 2xx or
3xx response resolves (redirect statuses included, since `maxRedirects: 0`
merely stops redirect-following).  The catch-side redirect branch is kept
verbatim even though statuses 301–308 can no longer reach it.  The file's
other two validators are embedded separately below:
`validateWrongContactPathLink` forces `valid:false`, `validateExternalLink`
uses external-specific messages. -/
def validateRange (url : String) (o : FetchOutcome) : ValidationResult :=
  match o with
  | .response s loc =>
    if 200 ≤ s && s < 400 then ⟨true, s, some url, false, none⟩
    else if redirectCodes.contains s then
      ⟨false, s, loc, true, some ("Redirected to: " ++ loc.getD "undefined")⟩
    else ⟨false, s, some url, false, some (axiosHttpErrMsg s)⟩
  | .netError msg => ⟨false, 0, some url, false, some (jsOr msg "Request failed")⟩

def validateDestinationLink : String → FetchOutcome → ValidationResult := validateRange

/-- article_audit.js `validateWrongContactPathLink` (lines 611–648): the
same 200–399 `validateStatus`, but every RESOLVED response returns
`valid:false` with the wrong-contact error string; the catch-side redirect
branch is again unreachable for 301–308. -/
def validateWrongContactPathLink (url : String) (o : FetchOutcome) : ValidationResult :=
  match o with
  | .response s loc =>
    if 200 ≤ s && s < 400 then
      ⟨false, s, some url, false,
        some "Wrong contact path detected - should probably be /contact instead of /contactt"⟩
    else if redirectCodes.contains s then
      ⟨false, s, loc, true,
        some ("Wrong contact path + redirected to: " ++ loc.getD "undefined")⟩
    else
      ⟨false, s, some url, false,
        some ("Wrong contact path (/contactt) + " ++ axiosHttpErrMsg s)⟩
  | .netError msg =>
    ⟨false, 0, some url, false,
      some ("Wrong contact path (/contactt) + " ++ jsOr msg "Request failed")⟩

/-- article_audit.js `validateExternalLink` (lines 651–687): the 200–399
`validateStatus` with external-specific error messages (which only occur on
out-of-range statuses or network errors). -/
def validateExternalLink (url : String) (o : FetchOutcome) : ValidationResult :=
  match o with
  | .response s loc =>
    if 200 ≤ s && s < 400 then ⟨true, s, some url, false, none⟩
    else if redirectCodes.contains s then
      ⟨false, s, loc, true,
        some ("External link redirected to: " ++ loc.getD "undefined")⟩
    else ⟨false, s, some url, false, some (axiosHttpErrMsg s)⟩
  | .netError msg => ⟨false, 0, some url, false, some (jsOr msg "External link request failed")⟩

end ArticleAudit

/-- An anchor chain whose parent carries both a real section class and, one
level up, the `.al-intro` container. -/
def introChain : List AncNode :=
  [⟨"link-cls", "", ""⟩, ⟨"al-sec-four al-sec", "Four Title", ""⟩, ⟨"al-intro", "", ""⟩]

/-! ## Availability Checkers

Each checker issues one content GET; its outcome type carries exactly the
data the checker reads from the response DOM. -/

/-- `amountText.replace(/[^\d.]/g, '')`. -/
def cleanNum (s : String) : String :=
  String.mk (s.data.filter (fun c => c.isDigit || c == '.'))

/-- `amountText.replace(/[0-9.,\s]/g, '')`. -/
def stripCurrencyJunk (s : String) : String :=
  String.mk (s.data.filter (fun c => !(c.isDigit || c == ',' || c == '.' || c.isWhitespace)))

structure CruiseResult where
  available : Bool
  price : JsVal ℚ
  currency : JsVal String
  error : JsVal String
deriving DecidableEq, Repr

inductive CruiseFetch where
  | err (msg : String)
  | ok (status : Nat) (amountText : Option String)
deriving DecidableEq, Repr

/-- `checkCruiseAvailability` (lines 217–254): the oracle supplies the raw
text of the first `.al-amount` element (`none` when absent). -/
def checkCruiseAvailability : CruiseFetch → CruiseResult
  | .err msg => ⟨false, .absent, .absent, .val (jsOr msg "Request failed")⟩
  | .ok s amt =>
    if s ≠ 200 then ⟨false, .absent, .absent, .val ("HTTP " ++ toString s)⟩
    else
      match amt with
      | none => ⟨false, .absent, .absent, .val "No .al-amount element found"⟩
      | some raw =>
        let amountText := myTrim raw
        match parseFloatQ (cleanNum amountText).data with
        | some v =>
          if 0 < v then
            ⟨true, .val v, .val (jsOr (myTrim (stripCurrencyJunk amountText)) "USD"), .absent⟩
          else ⟨false, .null, .null, .absent⟩
        | none => ⟨false, .null, .null, .absent⟩

structure TourResult where
  available : Bool
  tourId : JsVal String
  price : JsVal ℚ
  currency : JsVal String
  priceText : JsVal String
  priceSelector : JsVal String
  pageTitle : JsVal String
  departureInfo : JsVal String
  durationInfo : JsVal String
  error : JsVal String
deriving DecidableEq, Repr

/-- A tour page: `priceBySel` is the DOM lookup `sel ↦ first element's text`,
the other fields are the texts of `h1` / `.al-tour-departure` /
`.al-tour-duration` (`""` when the element is absent, as `.text()` returns). -/
inductive TourFetch where
  | err (msg : String)
  | ok (status : Nat) (priceBySel : String → Option String) (h1Text depText durText : String)

def priceSelectors : List String :=
  [".al-price-summary .al-amount",
   ".al-price-summary .al-price-min .al-amount",
   ".al-price-summary .al-price .al-amount",
   ".al-price-min .al-amount",
   ".al-price .al-amount",
   "[class*=\"price\"] .al-amount",
   ".al-amount"]

/-- The ordered selector probe: first selector with a matching element. -/
def firstSelHit (f : String → Option String) : List String → Option (String × String)
  | [] => none
  | sel :: rest =>
    match f sel with
    | some txt => some (sel, txt)
    | none => firstSelHit f rest

/-- `x.text().trim() || null`. -/
def nullIfEmptyTrim (s : String) : JsVal String :=
  let t := myTrim s
  if t = "" then .null else .val t

/-- `checkTourWithIdAvailability` (lines 257–351). -/
def checkTourWithIdAvailability (url : String) : TourFetch → TourResult
  | .err msg =>
    ⟨false, .null, .null, .null, .absent, .absent, .absent, .absent, .absent,
      .val (jsOr msg "Request failed")⟩
  | .ok s sel h1 dep dur =>
    if s ≠ 200 then
      ⟨false, .null, .null, .null, .absent, .absent, .absent, .absent, .absent,
        .val ("HTTP " ++ toString s)⟩
    else
      let tourId : JsVal String :=
        match toursIdCapture url.data with
        | some d => .val d
        | none => .null
      match firstSelHit sel priceSelectors with
      | none =>
        ⟨false, tourId, .null, .null, .absent, .null, .absent, .absent, .absent,
          .val "No price element found"⟩
      | some (selName, rawTxt) =>
        let amountText := myTrim rawTxt
        match parseFloatQ (cleanNum amountText).data with
        | some v =>
          if 0 < v then
            ⟨true, tourId, .val v,
              .val (jsOr (myTrim (stripCurrencyJunk amountText)) "USD"),
              .val amountText, .val selName, nullIfEmptyTrim h1, nullIfEmptyTrim dep,
              nullIfEmptyTrim dur, .null⟩
          else
            ⟨false, tourId, .null, .null, .val amountText, .val selName,
              nullIfEmptyTrim h1, nullIfEmptyTrim dep, nullIfEmptyTrim dur, .null⟩
        | none =>
          ⟨false, tourId, .null, .null, .val amountText, .val selName,
            nullIfEmptyTrim h1, nullIfEmptyTrim dep, nullIfEmptyTrim dur, .null⟩

structure ActivityResult where
  available : Bool
  pageType : JsVal String
  experienceOptions : JsVal (List String)
  activityOptions : JsVal (List String)
  activityPath : JsVal String
  normalizedActivityPath : JsVal String
  isAvailableInExperience : JsVal Bool
  isAvailableInActivity : JsVal Bool
  error : JsVal String
deriving DecidableEq, Repr

inductive ActivityFetch where
  | err (msg : String)
  | ok (status : Nat) (hasIndexList : Bool) (expLabels actLabels : List String)
deriving DecidableEq, Repr

/-- The option-label `each` loops: trim each label text, keep the truthy ones. -/
def optionLabels (raw : List String) : List String :=
  (raw.map myTrim).filter (fun t => !(t == ""))

def matchesOption (nPath : String) (opt : String) : Bool :=
  let nOpt := normalizeForComparison opt
  nOpt == nPath || strIncl nOpt nPath || strIncl nPath nOpt

/-- `checkTourActivityAvailability` (lines 706–816).  The code parses
`new URL(url)` inside the `try`; a malformed URL lands in the catch branch
(modelled by the `parseUrl` failure case). -/
def checkTourActivityAvailability (url : String) : ActivityFetch → ActivityResult
  | .err msg =>
    ⟨false, .val "unknown", .val [], .val [], .absent, .absent, .absent, .absent,
      .val (jsOr msg "Request failed")⟩
  | .ok s hasIdx expRaw actRaw =>
    if s ≠ 200 then
      ⟨false, .val "unknown", .val [], .val [], .absent, .absent, .absent, .absent,
        .val ("HTTP " ++ toString s)⟩
    else if !hasIdx then
      ⟨true, .val "landing", .val [], .val [], .absent, .absent, .absent, .absent, .null⟩
    else
      match parseUrl url with
      | none =>
        ⟨false, .val "unknown", .val [], .val [], .absent, .absent, .absent, .absent,
          .val "Invalid URL"⟩
      | some u =>
        let experienceOptions := optionLabels expRaw
        let activityOptions := optionLabels actRaw
        let activityPath := ((splitCh '/' u.pathname).getLast?).getD ""
        let nPath := normalizeForComparison activityPath
        let inExp := experienceOptions.any (matchesOption nPath)
        let inAct := activityOptions.any (matchesOption nPath)
        ⟨inExp || inAct, .val "index", .val experienceOptions, .val activityOptions,
          .val activityPath, .val nPath, .val inExp, .val inAct, .null⟩

structure ShipResult where
  available : Bool
  shipOptions : JsVal (List String)
  shipName : JsVal String
  normalizedShipName : JsVal String
  normalizedOptions : JsVal (List (String × String))
  toursUrl : JsVal String
  error : JsVal String
deriving DecidableEq, Repr

inductive ShipFetch where
  | err (msg : String)
  | ok (status : Nat) (shipLabels : List String)
deriving DecidableEq, Repr

/-- `replace(/\/+/g, '/')`: collapse slash runs. -/
def collapseSlashAux : List Char → List Char
  | [] => []
  | c :: cs =>
    let rest := collapseSlashAux cs
    if c == '/' then
      match rest with
      | '/' :: ds => '/' :: ds
      | ds => '/' :: ds
    else c :: rest

/-- `replace(':/', '://')`: restore the scheme separator (first match only). -/
def fixScheme : List Char → List Char
  | [] => []
  | c :: cs =>
    if strLead ":/".data (c :: cs) then ':' :: '/' :: '/' :: cs.drop 1
    else c :: fixScheme cs

/-- `` `${origin}${pathname}/tours`.replace(/\/+/g,'/').replace(':/','://') ``. -/
def toursUrlOf (baseUrl : String) : Option String :=
  (parseUrl baseUrl).map (fun u =>
    String.mk (fixScheme (collapseSlashAux
      (u.scheme ++ "://" ++ u.hostname ++ u.pathname ++ "/tours").data)))

/-- `checkCruiseShipAvailability` (lines 819–914); URL-construction or
URL-parse failures land in the catch branch (`toursUrl: null`). -/
def checkCruiseShipAvailability (cruiseShipUrl baseUrl : String) (f : ShipFetch) : ShipResult :=
  match toursUrlOf baseUrl with
  | none => ⟨false, .val [], .absent, .absent, .absent, .null, .val "Invalid URL"⟩
  | some toursUrl =>
    match f with
    | .err msg => ⟨false, .val [], .absent, .absent, .absent, .null, .val (jsOr msg "Request failed")⟩
    | .ok s labels =>
      if s ≠ 200 then
        ⟨false, .val [], .absent, .absent, .absent, .val toursUrl,
          .val ("HTTP " ++ toString s ++ " when loading tours page")⟩
      else
        match parseUrl cruiseShipUrl with
        | none => ⟨false, .val [], .absent, .absent, .absent, .null, .val "Invalid URL"⟩
        | some cu =>
          let shipOptions := optionLabels labels
          let shipName := ((splitCh '/' cu.pathname).getLast?).getD ""
          ⟨shipOptions.any (fun o => shipNamesMatch shipName o),
            .val shipOptions, .val shipName, .val (normalizeShipName shipName),
            .val (shipOptions.map (fun o => (o, normalizeShipName o))), .val toursUrl, .null⟩

structure SimpleResult where
  available : Bool
  error : JsVal String
deriving DecidableEq, Repr

inductive SimpleFetch where
  | err (msg : String)
  | ok (status : Nat)
deriving DecidableEq, Repr

/-- `checkStoryAvailability` (lines 917–945): available iff HTTP 200. -/
def checkStoryAvailability : SimpleFetch → SimpleResult
  | .err msg => ⟨false, .val (jsOr msg "Request failed")⟩
  | .ok s => if s ≠ 200 then ⟨false, .val ("HTTP " ++ toString s)⟩ else ⟨true, .null⟩

/-- `checkContactPageAvailability` (lines 948–976): identical body. -/
def checkContactPageAvailability : SimpleFetch → SimpleResult := checkStoryAvailability

/-- `checkExternalLinkAvailability` (lines 979–1007): 12s timeout, external
default message. -/
def checkExternalLinkAvailability : SimpleFetch → SimpleResult
  | .err msg => ⟨false, .val (jsOr msg "External link request failed")⟩
  | .ok s => if s ≠ 200 then ⟨false, .val ("HTTP " ++ toString s)⟩ else ⟨true, .null⟩

/-! ## The Link record and the placeholder-field injection -/

structure PlainFields where
  text : String
  href : String
  position : Nat
  element : String
  classes : String
  id : String
  category : String
  sectionType : String
  sectionTitle : Option String
deriving DecidableEq, Repr, Inhabited

/-- The category-dependent validation/availability field block of a Link
(spec §3's "initially-null set of validation/availability fields"). -/
structure AuditFields where
  valid : JsVal Bool
  status : JsVal Nat
  redirected : JsVal Bool
  resolvedUrl : JsVal String
  validationError : JsVal String
  available : JsVal Bool
  price : JsVal ℚ
  currency : JsVal String
  availabilityError : JsVal String
  tourId : JsVal String
  priceText : JsVal String
  priceSelector : JsVal String
  pageTitle : JsVal String
  departureInfo : JsVal String
  durationInfo : JsVal String
  pageType : JsVal String
  experienceOptions : JsVal (List String)
  activityOptions : JsVal (List String)
  activityPath : JsVal String
  isAvailableInExperience : JsVal Bool
  isAvailableInActivity : JsVal Bool
  shipOptions : JsVal (List String)
  shipName : JsVal String
  normalizedShipName : JsVal String
  normalizedOptions : JsVal (List (String × String))
  toursUrl : JsVal String
deriving DecidableEq, Repr, Inhabited

/-- Before the placeholder injection no audit field exists on the object. -/
def absentAudit : AuditFields :=
  { valid := .absent, status := .absent, redirected := .absent, resolvedUrl := .absent,
    validationError := .absent, available := .absent, price := .absent, currency := .absent,
    availabilityError := .absent, tourId := .absent, priceText := .absent,
    priceSelector := .absent, pageTitle := .absent, departureInfo := .absent,
    durationInfo := .absent, pageType := .absent, experienceOptions := .absent,
    activityOptions := .absent, activityPath := .absent, isAvailableInExperience := .absent,
    isAvailableInActivity := .absent, shipOptions := .absent, shipName := .absent,
    normalizedShipName := .absent, normalizedOptions := .absent, toursUrl := .absent }

/-- The per-category placeholder chain of `extractLinks`
(src/routes/audit_script.js lines 1099–1203). -/
def placeholderFields (cat : String) : AuditFields :=
  if cat == "cruise-with-id" then
    { absentAudit with available := .null, price := .null, currency := .null,
                       availabilityError := .null }
  else if cat == "tour-with-id" then
    { absentAudit with valid := .null, status := .null, redirected := .null,
                       resolvedUrl := .null, validationError := .null, available := .null,
                       tourId := .null, price := .null, currency := .null, priceText := .null,
                       priceSelector := .null, pageTitle := .null, departureInfo := .null,
                       durationInfo := .null, availabilityError := .null }
  else if strStarts cat "multi-level/destination-" then
    { absentAudit with valid := .null, status := .null, redirected := .null,
                       resolvedUrl := .null, validationError := .null }
  else if cat == "tour-activity" then
    { absentAudit with valid := .null, status := .null, redirected := .null,
                       resolvedUrl := .null, validationError := .null, available := .null,
                       pageType := .null, experienceOptions := .null, activityOptions := .null,
                       activityPath := .null, isAvailableInExperience := .null,
                       isAvailableInActivity := .null, availabilityError := .null }
  else if cat == "cruise-ship" then
    { absentAudit with valid := .null, status := .null, redirected := .null,
                       resolvedUrl := .null, validationError := .null, available := .null,
                       shipOptions := .null, shipName := .null, normalizedShipName := .null,
                       normalizedOptions := .null, toursUrl := .null,
                       availabilityError := .null }
  else if cat == "destination-special-page" then
    { absentAudit with valid := .null, status := .null, redirected := .null,
                       resolvedUrl := .null, validationError := .null }
  else if cat == "multi-level/stories/story-name" then
    { absentAudit with valid := .null, status := .null, redirected := .null,
                       resolvedUrl := .null, validationError := .null, available := .null,
                       availabilityError := .null }
  else if cat == "contact-page" then
    { absentAudit with valid := .null, status := .null, redirected := .null,
                       resolvedUrl := .null, validationError := .null, available := .null,
                       availabilityError := .null }
  else if cat == "wrong-contact-path" then
    { absentAudit with valid := .null, status := .null, redirected := .null,
                       resolvedUrl := .null, validationError := .null, available := .null,
                       availabilityError := .null }
  else if cat == "external-link" then
    { absentAudit with valid := .null, status := .null, redirected := .null,
                       resolvedUrl := .null, validationError := .null, available := .null,
                       availabilityError := .null }
  else absentAudit

structure Link where
  plain : PlainFields
  audit : AuditFields
deriving DecidableEq, Repr, Inhabited

/-- The non-audit data of one extracted link: everything `extractLinks`
computes before the category-specific placeholder injection. -/
structure RawLink where
  text : String
  href : String
  position : Nat
  element : String
  classes : String
  id : String
  sectionType : String
  sectionTitle : Option String
deriving DecidableEq, Repr, Inhabited

/-- The JS property named `section` is called `sectionType` here (`section`
is a Lean keyword); the source's own local variable is also `sectionType`. -/
def mkExtractedLink (r : RawLink) : Link :=
  ⟨⟨r.text, r.href, r.position, r.element, r.classes, r.id, categorizeUrl r.href,
    r.sectionType, r.sectionTitle⟩,
   placeholderFields (categorizeUrl r.href)⟩

/-! ## The single-URL audit pipeline (router.post of audit_script.js)

Every task pushed to `validationTasks` / `availabilityTasks` carries its
`type` string, modelled by the tags below; `Promise.allSettled` keeps
submission order and all tasks fulfil (every validator/checker catches).
The result `Map` keyed by `href` is modelled by `lookupLast`
(later `Map.set` calls overwrite earlier ones). -/

inductive VTag where
  | tourWithIdVal | destination | tourActivityVal | cruiseShipVal
  | destSpecialVal | storyVal | contactVal | wrongContactVal | externalVal
deriving DecidableEq, Repr

inductive VRes where
  | cruise (r : CruiseResult)
  | vres (t : VTag) (r : ValidationResult)
deriving DecidableEq, Repr

inductive SATag where
  | story | contact | external
deriving DecidableEq, Repr

inductive ARes where
  | tourWithIdAvail (r : TourResult)
  | tourActivityAvail (r : ActivityResult)
  | cruiseShipAvail (r : ShipResult)
  | simpleAvail (t : SATag) (r : SimpleResult)
deriving DecidableEq, Repr

/-- JS `Map` built by `results.forEach(map.set(href, data))` then `map.get`:
the LAST entry for a key wins. -/
def lookupLast {β : Type} (xs : List (String × β)) (k : String) : Option β :=
  xs.foldl (fun acc p => if p.1 == k then some p.2 else acc) none

/-- The network/DOM oracle: one fixed outcome per URL for each kind of GET
the pipeline performs (the pipeline issues at most one GET of each kind per
URL, except that duplicate links repeat the same GET — modelled as
returning the same outcome). -/
structure Net where
  validate : String → FetchOutcome
  cruisePage : String → CruiseFetch
  tourPage : String → TourFetch
  activityPage : String → ActivityFetch
  shipPage : String → ShipFetch
  storyPage : String → SimpleFetch
  contactPage : String → SimpleFetch
  externalPage : String → SimpleFetch

/-- One category block of `validationTasks`: filter by category, produce one
tagged result per link. -/
def vblock (links : List Link) (p : Link → Bool) (f : Link → VRes) : List (String × VRes) :=
  (links.filter p).map (fun l => (l.plain.href, f l))

def ablock (links : List Link) (p : Link → Bool) (f : Link → ARes) : List (String × ARes) :=
  (links.filter p).map (fun l => (l.plain.href, f l))

def catIs (c : String) (l : Link) : Bool := l.plain.category == c

def catIsDest (l : Link) : Bool := strStarts l.plain.category "multi-level/destination-"

/-- The availability-phase filter `link.category === c && link.valid === true`. -/
def catValid (c : String) (l : Link) : Bool :=
  (l.plain.category == c) && (l.audit.valid == JsVal.val true)

/-- The validation-task blocks in submission order (lines 1260–1393); note
the cruise-with-id block runs `checkCruiseAvailability` — an availability
check — during the validation phase, unconditionally. -/
def mkValidationResults (links : List Link) (net : Net) : List (String × VRes) :=
  vblock links (catIs "cruise-with-id")
      (fun l => .cruise (checkCruiseAvailability (net.cruisePage l.plain.href)))
    ++ vblock links (catIs "tour-with-id")
      (fun l => .vres .tourWithIdVal (validateTourWithIdLink l.plain.href (net.validate l.plain.href)))
    ++ vblock links catIsDest
      (fun l => .vres .destination (validateDestinationLink l.plain.href (net.validate l.plain.href)))
    ++ vblock links (catIs "tour-activity")
      (fun l => .vres .tourActivityVal (validateTourActivityLink l.plain.href (net.validate l.plain.href)))
    ++ vblock links (catIs "cruise-ship")
      (fun l => .vres .cruiseShipVal (validateCruiseShipLink l.plain.href (net.validate l.plain.href)))
    ++ vblock links (catIs "destination-special-page")
      (fun l => .vres .destSpecialVal (validateDestinationSpecialPageLink l.plain.href (net.validate l.plain.href)))
    ++ vblock links (catIs "multi-level/stories/story-name")
      (fun l => .vres .storyVal (validateStoryLink l.plain.href (net.validate l.plain.href)))
    ++ vblock links (catIs "contact-page")
      (fun l => .vres .contactVal (validateContactPageLink l.plain.href (net.validate l.plain.href)))
    ++ vblock links (catIs "wrong-contact-path")
      (fun l => .vres .wrongContactVal (validateWrongContactPathLink l.plain.href (net.validate l.plain.href)))
    ++ vblock links (catIs "external-link")
      (fun l => .vres .externalVal (validateExternalLink l.plain.href (net.validate l.plain.href)))

/-- The validation-merge branches (lines 1407–1481): all nine validation
types copy the same five fields; the `cruise` type copies availability
fields.  No branch reads or writes `category`. -/
def mergeV (e : Option VRes) (a : AuditFields) : AuditFields :=
  match e with
  | none => a
  | some (.cruise r) =>
    { a with available := .val r.available, price := r.price, currency := r.currency,
             availabilityError := r.error }
  | some (.vres _ r) =>
    { a with valid := .val r.valid, status := .val r.status, redirected := .val r.redirected,
             resolvedUrl := jsOfOpt r.resolvedUrl, validationError := jsOfOpt r.error }

def applyValidation (m : List (String × VRes)) (l : Link) : Link :=
  { l with audit := mergeV (lookupLast m l.plain.href) l.audit }

/-- The availability-task blocks (lines 1486–1563): each filtered by
`link.valid === true`. -/
def mkAvailabilityResults (links : List Link) (net : Net) (targetUrl : String) :
    List (String × ARes) :=
  ablock links (catValid "tour-with-id")
      (fun l => .tourWithIdAvail (checkTourWithIdAvailability l.plain.href (net.tourPage l.plain.href)))
    ++ ablock links (catValid "tour-activity")
      (fun l => .tourActivityAvail (checkTourActivityAvailability l.plain.href (net.activityPage l.plain.href)))
    ++ ablock links (catValid "cruise-ship")
      (fun l => .cruiseShipAvail (checkCruiseShipAvailability l.plain.href targetUrl
        (net.shipPage ((toursUrlOf targetUrl).getD ""))))
    ++ ablock links (catValid "multi-level/stories/story-name")
      (fun l => .simpleAvail .story (checkStoryAvailability (net.storyPage l.plain.href)))
    ++ ablock links (catValid "contact-page")
      (fun l => .simpleAvail .contact (checkContactPageAvailability (net.contactPage l.plain.href)))
    ++ ablock links (catValid "external-link")
      (fun l => .simpleAvail .external (checkExternalLinkAvailability (net.externalPage l.plain.href)))

/-- The availability-merge branches (lines 1577–1625): every branch writes
`available` and `availabilityError` plus its category extras; none touches
`valid` or any validation field. -/
def mergeA (e : Option ARes) (a : AuditFields) : AuditFields :=
  match e with
  | none => a
  | some (.tourWithIdAvail r) =>
    { a with available := .val r.available, tourId := r.tourId, price := r.price,
             currency := r.currency, priceText := r.priceText,
             priceSelector := r.priceSelector, pageTitle := r.pageTitle,
             departureInfo := r.departureInfo, durationInfo := r.durationInfo,
             availabilityError := r.error }
  | some (.tourActivityAvail r) =>
    { a with available := .val r.available, pageType := r.pageType,
             experienceOptions := r.experienceOptions, activityOptions := r.activityOptions,
             activityPath := r.activityPath,
             isAvailableInExperience := r.isAvailableInExperience,
             isAvailableInActivity := r.isAvailableInActivity,
             availabilityError := r.error }
  | some (.cruiseShipAvail r) =>
    { a with available := .val r.available, shipOptions := r.shipOptions,
             shipName := r.shipName, normalizedShipName := r.normalizedShipName,
             normalizedOptions := r.normalizedOptions, toursUrl := r.toursUrl,
             availabilityError := r.error }
  | some (.simpleAvail _ r) =>
    { a with available := .val r.available, availabilityError := r.error }

def applyAvailability (m : List (String × ARes)) (l : Link) : Link :=
  { l with audit := mergeA (lookupLast m l.plain.href) l.audit }

/-- The full single-URL pipeline after extraction: placeholder injection,
validation fan-out + merge, availability fan-out (filtered by
`valid === true`) + merge. -/
def runAudit (targetUrl : String) (raws : List RawLink) (net : Net) : List Link :=
  let links1 := raws.map mkExtractedLink
  let vmap := mkValidationResults links1 net
  let links2 := links1.map (applyValidation vmap)
  let amap := mkAvailabilityResults links2 net targetUrl
  links2.map (applyAvailability amap)

/-- The categories that have BOTH a Validator and an Availability Checker
(cruise-with-id has only the unconditional availability check). -/
def checkerValidatedCategories : List String :=
  ["tour-with-id", "tour-activity", "cruise-ship", "multi-level/stories/story-name",
   "contact-page", "external-link"]

/-! ## Link Extractor (`extractLinks`, lines 1010–1220) -/

/-- One element of `container.find('a[href]')`, carrying exactly the data
the extractor reads: the `href` attribute, the ancestor chain (self first),
tag/class/id, the text of the first custom-title-selector match (`none`
when no such element), image presence and `alt`, `aria-label`, and the
direct text-node content. -/
structure Anchor where
  hrefAttr : String
  node : AncNode
  ancestors : List AncNode
  tagName : String
  idAttr : String
  titleSel : Option String
  hasImg : Bool
  imgAlt : Option String
  ariaLabel : Option String
  directText : String
deriving DecidableEq, Repr, Inhabited

def anchorChain (a : Anchor) : List AncNode := a.node :: a.ancestors

/-- `replace(/[\n\t]/g, '')`. -/
def stripNT (s : String) : String :=
  String.mk (s.data.filter (fun c => !(c == '\n' || c == '\t')))

/-- The display-text priority chain, whitespace cleanup, truncation and
empty-text fallbacks (lines 1044–1083). -/
def anchorText (a : Anchor) : String :=
  let t0 :=
    match a.titleSel with
    | some t => myTrim t
    | none =>
      if a.hasImg then
        match a.imgAlt with
        | some alt => myTrim alt
        | none => ""
      else
        match a.ariaLabel with
        | some s => if !(s == "") then myTrim s else myTrim a.directText
        | none => myTrim a.directText
  let t1 := myTrim (stripNT (collapseWs t0))
  let t2 := truncate t1
  if t2 == "" then (if a.hasImg then "Image Link" else "[No text]") else t2

def skipHref (h : String) : Bool :=
  h == "" || h == "#" || strStarts h "javascript:"

/-- The href-resolution step; `resolve` models `new URL(href, base).href`
(`none` = the constructor throws, the link is skipped with a warning). -/
def resolveHref (resolve : String → String → Option String) (base h : String) :
    Option String :=
  if strStarts h "/" then resolve h base
  else if !(strStarts h "http") then resolve h base
  else some h

def keepAnchor (resolve : String → String → Option String) (base : String) (a : Anchor) :
    Bool :=
  let h := myTrim a.hrefAttr
  !(skipHref h) && (resolveHref resolve base h).isSome

/-- One iteration of the `each` callback; `i` is the anchor's index in the
matched set — the source uses `position: i + 1` (the separate `linkCounter`
variable is incremented but never used for the position). -/
def processAnchor (resolve : String → String → Option String) (base : String)
    (i : Nat) (a : Anchor) : Option Link :=
  let h := myTrim a.hrefAttr
  if skipHref h then none
  else
    match resolveHref resolve base h with
    | none => none
    | some href =>
      some (mkExtractedLink ⟨anchorText a, href, i + 1, a.tagName, a.node.classes,
        a.idAttr, detectSectionType (anchorChain a), getSectionTitle (anchorChain a)⟩)

def extractGo (resolve : String → String → Option String) (base : String) :
    Nat → List Anchor → List Link
  | _, [] => []
  | i, a :: rest =>
    match processAnchor resolve base i a with
    | some l => l :: extractGo resolve base (i + 1) rest
    | none => extractGo resolve base (i + 1) rest

/-- `extractLinks`: `anchors` is the region's `a[href]` matched set. -/
def extractLinks (anchors : List Anchor) (base : String)
    (resolve : String → String → Option String) : List Link :=
  extractGo resolve base 0 anchors

/-! ## Concrete pipeline inputs used by the C1/C5/C8 theorems -/

/-- A link whose URL categorizes as `cruise-with-id`. -/
def cruiseRaw : RawLink :=
  ⟨"c", "https://adventure-life.com/a/cruises/12/s", 1, "A", "", "", "unknown", none⟩

def cruiseNet : Net :=
  ⟨fun _ => .netError "x", fun _ => .ok 200 (some "$1,234"), fun _ => .err "x",
   fun _ => .err "x", fun _ => .err "x", fun _ => .err "x", fun _ => .err "x",
   fun _ => .err "x"⟩

/-- A link whose URL categorizes as `tour-activity`. -/
def activityRaw : RawLink :=
  ⟨"t", "https://adventure-life.com/a/tours/hike", 1, "A", "", "", "unknown", none⟩

/-- Oracle: its Validator GET returns 200; its availability GET finds a
landing page (no index list). -/
def activityNet : Net :=
  ⟨fun _ => .response 200 none, fun _ => .err "x", fun _ => .err "x",
   fun _ => .ok 200 false [] [], fun _ => .err "x", fun _ => .err "x",
   fun _ => .err "x", fun _ => .err "x"⟩

def c1witnessLink : Link :=
  (runAudit "https://adventure-life.com" [activityRaw] activityNet).headI

/-- Two raw links sharing one href (an external URL). -/
def dupRaw : RawLink := ⟨"d", "https://e.com/x", 1, "A", "", "", "unknown", none⟩
def dupRaw2 : RawLink := ⟨"other", "https://e.com/x", 5, "A", "cls", "id2", "four", some "T"⟩

def vtrueRes : ValidationResult := ⟨true, 200, some "https://e.com/x", false, none⟩
def vfalseRes : ValidationResult :=
  ⟨false, 404, some "https://e.com/x", false, some (axiosHttpErrMsg 404)⟩

def rT : String × VRes := ("https://e.com/x", .vres .externalVal vtrueRes)
def rF : String × VRes := ("https://e.com/x", .vres .externalVal vfalseRes)
def aR : String × ARes := ("https://e.com/x", .simpleAvail .external ⟨true, .null⟩)

/-- An anchor skipped by extraction (`href === '#'`). -/
def hashAnchor : Anchor := ⟨"#", ⟨"", "", ""⟩, [], "A", "", none, false, none, none, "x"⟩

/-- A kept anchor with an absolute href. -/
def realAnchor : Anchor :=
  ⟨"https://e.com/a", ⟨"", "", ""⟩, [], "A", "", none, false, none, none, "link text"⟩

/-! ## Batch endpoint (`router.post` of article_audit.js, lines 2138–2349) -/

namespace ArticleAudit

/-- The slice of one `processSingleUrl` result the batch summary reads. -/
structure BStats where
  totalLinks : Nat
  categoryCounts : List (String × Nat)
  sectionCounts : List (String × Nat)
deriving DecidableEq, Repr

/-- `processSingleUrl` never rejects: it resolves with `success` true or
false (plus an error message). -/
inductive UrlOutcome where
  | ok (stats : BStats)
  | failed (err : String)

structure BatchReply where
  status : Nat
  errorMsg : Option String
  totalUrls : Nat
  successfulUrls : Nat
  failedUrls : Nat
  results : List (String × BStats)
  failures : List (String × String)
  totalLinksAcrossAllUrls : Nat
  averageLinksPerUrl : Nat
  seedFetches : Nat
deriving DecidableEq, Repr

/-- `Math.round(a / b)` for naturals, `b > 0`. -/
def jsRound (a b : Nat) : Nat := (2 * a + b) / (2 * b)

/-- The batch handler: input validation (missing/non-array body, the
`> 20` cap, per-URL `new URL` syntax check), then one `processSingleUrl`
per URL (counted by `seedFetches`; a 400-class rejection performs none),
then the aggregation and the HTTP-200 response. -/
def batchEndpoint (body : Option (List String)) (parses : String → Bool)
    (crawl : String → UrlOutcome) : BatchReply :=
  match body with
  | none => ⟨400, some "Missing or invalid URLs array in request body", 0, 0, 0, [], [], 0, 0, 0⟩
  | some urls =>
    if urls.length > 20 then
      ⟨400, some "Too many URLs. Maximum 20 URLs per batch request.", 0, 0, 0, [], [], 0, 0, 0⟩
    else
      let invalidUrls := urls.filter (fun u => !(parses u))
      if invalidUrls.length > 0 then
        ⟨400, some "Invalid URLs found", 0, 0, 0, [], [], 0, 0, 0⟩
      else
        let outcomes := urls.map (fun u => (u, crawl u))
        let succ := outcomes.filterMap (fun p =>
          match p.2 with
          | .ok st => some (p.1, st)
          | .failed _ => none)
        let fails := outcomes.filterMap (fun p =>
          match p.2 with
          | .failed e => some (p.1, e)
          | .ok _ => none)
        let total := (succ.map (fun p => p.2.totalLinks)).foldl (· + ·) 0
        ⟨200, none, urls.length, succ.length, fails.length, succ, fails, total,
          if succ.length > 0 then jsRound total succ.length else 0, urls.length⟩

end ArticleAudit

/-! ## Theorems -/

lemma lastSpaceAux_spec (cs : List Char) :
    ∀ (i0 fromIdx : Nat) (acc : Option Nat) (j : Nat),
      lastSpaceAux cs i0 fromIdx acc = some j →
      acc = some j ∨ (i0 ≤ j ∧ j ≤ fromIdx ∧ cs[j - i0]? = some ' ') := by
  induction cs with
  | nil => intro i0 fromIdx acc j h; exact Or.inl h
  | cons c cs ih =>
    intro i0 fromIdx acc j h
    unfold lastSpaceAux at h
    split at h
    · exact Or.inl h
    · rename_i hle
      rcases ih (i0 + 1) fromIdx (if c == ' ' then some i0 else acc) j h with h2 | ⟨ha, hb, hc⟩
      · by_cases hsp : c == ' '
        · rw [if_pos hsp] at h2
          have hji : j = i0 := by
            have := Option.some.inj h2; omega
          subst hji
          refine Or.inr ⟨Nat.le_refl _, by omega, ?_⟩
          simp only [Nat.sub_self, List.getElem?_cons_zero]
          rw [eq_of_beq hsp]
        · rw [if_neg hsp] at h2
          exact Or.inl h2
      · refine Or.inr ⟨by omega, hb, ?_⟩
        have hj : j - i0 = (j - (i0 + 1)) + 1 := by omega
        rw [hj, List.getElem?_cons_succ]
        exact hc

lemma string_append_length (a b : String) : (a ++ b).length = a.length + b.length :=
  String.length_append a b

/-- C4 (amended): for any text longer than 120 characters, the truncated
output is at most 123 characters, and it is either exactly `"..."` (when no
space occurs at index ≤ 120: `lastIndexOf` returns `-1` and `substring(0,-1)`
is empty) or the prefix up to the last space at index ≤ 120 followed by
`"..."` — i.e. a word-boundary cut, never mid-word. -/
theorem truncate_bound_amended (s : String) (h : 120 < s.length) :
    (truncate s).length ≤ 123 ∧
    (truncate s = "..." ∨
      ∃ i, i ≤ 120 ∧ s.data[i]? = some ' ' ∧
        truncate s = String.mk (s.data.take i) ++ "...") := by
  unfold truncate
  rw [if_neg (by omega)]
  cases hls : lastSpaceAux s.data 0 120 none with
  | none =>
    constructor
    · show ("..." : String).length ≤ 123
      decide
    · exact Or.inl rfl
  | some i =>
    rcases lastSpaceAux_spec s.data 0 120 none i hls with h2 | ⟨_, hb, hc⟩
    · exact absurd h2 (by simp)
    · constructor
      · rw [string_append_length]
        have : (s.data.take i).length ≤ i := by
          simp [Nat.min_le_left i s.data.length]
        have hmk : (String.mk (s.data.take i)).length = (s.data.take i).length := rfl
        have h3 : ("..." : String).length = 3 := by decide
        omega
      · refine Or.inr ⟨i, hb, by simpa using hc, rfl⟩

/-- C4 witness: the amended statement instantiated at a concrete
121-character text. -/
theorem truncate_bound_instance :
    120 < sampleLongText.length ∧
    ((truncate sampleLongText).length ≤ 123 ∧
      (truncate sampleLongText = "..." ∨
        ∃ i, i ≤ 120 ∧ sampleLongText.data[i]? = some ' ' ∧
          truncate sampleLongText = String.mk (sampleLongText.data.take i) ++ "...")) :=
  ⟨by decide, truncate_bound_amended sampleLongText (by decide)⟩

/-- C4 counterexample: `"A".repeat(130)` does NOT truncate at index 120 —
`lastIndexOf(' ', 120)` is `-1`, `substring(0, -1)` is empty, so the whole
text collapses to `"..."`. -/
theorem truncate_no_space_counterexample :
    truncate stringOfAs = "..." ∧
      truncate stringOfAs ≠ String.mk (List.replicate 120 'A') ++ "..." := by
  constructor
  · decide
  · decide

/-- C7: the ship-name fuzzy matcher accepts `"Wind Star"` against
`"M/S Wind Star"` (the `/` is neutralized to a space by normalization and
containment fires) and rejects `"Wind Star"` against `"Sea Cloud"`. -/
theorem ship_names_match_examples :
    shipNamesMatch "Wind Star" "M/S Wind Star" = true ∧
      shipNamesMatch "Wind Star" "Sea Cloud" = false := by
  constructor
  · decide
  · decide

/-- C3 (amended): among site-internal URLs whose clean path contains
`/tours/` and which are not captured by an earlier categorization rule, the
category is exactly one of `tour-with-id` / `tour-activity`, and it is
`tour-with-id` precisely when the segment after the first `tours` segment
exists and CONTAINS a digit (the source tests `/\d+/`, not `/^\d+$/`). -/
theorem tours_rule_amended (host path : String)
    (hhost : (host == "www.adventure-life.com" || host == "adventure-life.com") = true)
    (h1 : wrongContactHit (cleanPathOf path) = false)
    (h2 : contactHit (cleanPathOf path) = false)
    (h3 : cruiseShipHit (cleanPathOf path) = false)
    (h4 : cruiseDeepHit (cleanPathOf path) = false)
    (h5 : specialHit (segmentsOf (cleanPathOf path)) = false)
    (h6 : articlesHit (segmentsOf (cleanPathOf path)) = false)
    (h7 : storiesDeepHit (segmentsOf (cleanPathOf path)) = false)
    (h8 : storiesTopHit (segmentsOf (cleanPathOf path)) = false)
    (h9 : operatorsHit (cleanPathOf path) = false)
    (h10 : toursHit (cleanPathOf path) = true) :
    (categorizeParsed host path = "tour-with-id" ∨
      categorizeParsed host path = "tour-activity") ∧
    (categorizeParsed host path = "tour-with-id" ↔
      toursIdCond (segmentsOf (cleanPathOf path)) = true) := by
  have hc : (!(host == "www.adventure-life.com") && !(host == "adventure-life.com")) = false := by
    rcases Bool.or_eq_true_iff.mp hhost with h | h <;> simp [h]
  by_cases ht : toursIdCond (segmentsOf (cleanPathOf path)) = true
  · constructor
    · exact Or.inl (by simp [categorizeParsed, hc, h1, h2, h3, h4, h5, h6, h7, h8, h9, h10, ht])
    · constructor
      · intro _; exact ht
      · intro _; simp [categorizeParsed, hc, h1, h2, h3, h4, h5, h6, h7, h8, h9, h10, ht]
  · have ht2 : toursIdCond (segmentsOf (cleanPathOf path)) = false := by
      simpa using ht
    constructor
    · exact Or.inr (by simp [categorizeParsed, hc, h1, h2, h3, h4, h5, h6, h7, h8, h9, h10, ht2])
    · constructor
      · intro hcat
        have : categorizeParsed host path = "tour-activity" := by
          simp [categorizeParsed, hc, h1, h2, h3, h4, h5, h6, h7, h8, h9, h10, ht2]
        rw [hcat] at this
        exact absurd this (by decide)
      · intro h; rw [h] at ht2; exact absurd ht2 (by decide)

/-- C3 witness: the amended tours rule at a concrete site-internal URL. -/
theorem tours_rule_instance :
    (categorizeParsed "adventure-life.com" "/a/tours/99/x" = "tour-with-id" ∨
      categorizeParsed "adventure-life.com" "/a/tours/99/x" = "tour-activity") ∧
    (categorizeParsed "adventure-life.com" "/a/tours/99/x" = "tour-with-id" ↔
      toursIdCond (segmentsOf (cleanPathOf "/a/tours/99/x")) = true) :=
  tours_rule_amended "adventure-life.com" "/a/tours/99/x" (by decide) (by decide)
    (by decide) (by decide) (by decide) (by decide) (by decide) (by decide)
    (by decide) (by decide) (by decide)

lemma any_of_drop_one_any {α : Type} (p : α → Bool) (l : List α)
    (h : (l.drop 1).any p = true) : l.any p = true := by
  cases l with
  | nil => simp at h
  | cons a t =>
    simp only [List.drop_succ_cons, List.drop_zero] at h
    simp [List.any_cons, h]

/-- C9: an anchor with an ancestor matching `.al-intro` always gets section
`intro` and title `Introduction Section` — both functions test the
`.al-intro` `closest` first, before any `al-sec-` ancestor walk. -/
theorem intro_short_circuit (chain : List AncNode)
    (h : (chain.drop 1).any (hasClass "al-intro") = true) :
    detectSectionType chain = "intro" ∧
      getSectionTitle chain = some "Introduction Section" := by
  have h2 : chain.any (hasClass "al-intro") = true := any_of_drop_one_any _ _ h
  constructor
  · simp [detectSectionType, h2]
  · simp [getSectionTitle, h2]

/-- C9 witness: a chain with a real `al-sec-four` section class below the
`.al-intro` ancestor still reports the intro section and title. -/
theorem intro_short_circuit_instance :
    (introChain.drop 1).any (hasClass "al-intro") = true ∧
    detectSectionType introChain = "intro" ∧
      getSectionTitle introChain = some "Introduction Section" :=
  ⟨by decide, intro_short_circuit introChain (by decide)⟩

/-- C2 counterexample: the `article_audit.js` Validator resolves a 301
response as `valid: true, redirected: false` (its `validateStatus` accepts
200–399), contradicting the claimed redirect classification. -/
theorem article_redirect_valid_counterexample :
    (ArticleAudit.validateDestinationLink "https://u" (.response 301 (some "https://loc"))).valid
        = true ∧
    (ArticleAudit.validateDestinationLink "https://u" (.response 301 (some "https://loc"))).redirected
        = false := by
  constructor
  · decide
  · decide

/-- C2 (amended): the audit_script validators treat exactly HTTP 200 as
valid, classify 301/302/303/307/308 as `valid:false, redirected:true` with
the Location header as `resolvedUrl`, and everything else as `valid:false,
redirected:false` with an error message — EXCEPT `wrong-contact-path`,
which forces `valid:false` even on 200.  The article_audit validators use
`validateStatus` 200–399 instead: a resolved 2xx/3xx response (redirect
codes included — the redirect branches there are unreachable) yields
`valid:true, redirected:false` for the seven generic validators and for
`validateExternalLink`, while `validateWrongContactPathLink` again forces
`valid:false` on every resolved response; statuses outside [200,400) and
network errors yield `valid:false, redirected:false`. -/
theorem validator_status_policy_amended :
    (∀ url loc, validateDestinationLink url (.response 200 loc)
        = ⟨true, 200, some url, false, none⟩) ∧
    (∀ url s loc, s ∈ redirectCodes →
      validateDestinationLink url (.response s loc)
        = ⟨false, s, loc, true, some ("Redirected to: " ++ loc.getD "undefined")⟩) ∧
    (∀ url s loc, s ≠ 200 → s ∉ redirectCodes →
      validateDestinationLink url (.response s loc)
        = ⟨false, s, some url, false, some (axiosHttpErrMsg s)⟩) ∧
    (∀ url msg, validateDestinationLink url (.netError msg)
        = ⟨false, 0, some url, false, some (jsOr msg "Request failed")⟩) ∧
    (∀ url loc, (validateWrongContactPathLink url (.response 200 loc)).valid = false) ∧
    (∀ url s loc, 200 ≤ s → s < 400 →
      ArticleAudit.validateDestinationLink url (.response s loc)
        = ⟨true, s, some url, false, none⟩) ∧
    (∀ url s loc, s < 200 ∨ 400 ≤ s →
      (ArticleAudit.validateDestinationLink url (.response s loc)).valid = false ∧
      (ArticleAudit.validateDestinationLink url (.response s loc)).redirected = false) ∧
    (∀ url msg, (ArticleAudit.validateDestinationLink url (.netError msg)).valid = false) ∧
    (∀ url s loc, 200 ≤ s → s < 400 →
      ArticleAudit.validateWrongContactPathLink url (.response s loc)
        = ⟨false, s, some url, false,
            some "Wrong contact path detected - should probably be /contact instead of /contactt"⟩) ∧
    (∀ url s loc, 200 ≤ s → s < 400 →
      ArticleAudit.validateExternalLink url (.response s loc)
        = ⟨true, s, some url, false, none⟩) := by
  refine ⟨fun url loc => rfl, ?_, ?_, fun url msg => rfl, fun url loc => rfl, ?_, ?_,
    fun url msg => rfl, ?_, ?_⟩
  · intro url s loc hs
    simp only [redirectCodes, List.mem_cons, List.not_mem_nil, or_false] at hs
    rcases hs with rfl | rfl | rfl | rfl | rfl <;> rfl
  · intro url s loc h200 hnr
    have hb : (s == 200) = false := beq_eq_false_iff_ne.mpr h200
    have hc : redirectCodes.contains s = false := by
      simp only [redirectCodes] at hnr ⊢
      simpa using hnr
    simp only [validateDestinationLink, validateOnly200]
    rw [hb, hc]
    rfl
  · intro url s loc hge hlt
    have hb : (decide (200 ≤ s) && decide (s < 400)) = true := by simp [hge, hlt]
    simp only [ArticleAudit.validateDestinationLink, ArticleAudit.validateRange]
    rw [hb]
    rfl
  · intro url s loc hrange
    have hb : (decide (200 ≤ s) && decide (s < 400)) = false := by simp; omega
    have hc : redirectCodes.contains s = false := by
      simp only [redirectCodes]; simp; omega
    simp only [ArticleAudit.validateDestinationLink, ArticleAudit.validateRange]
    rw [hb, hc]
    exact ⟨rfl, rfl⟩
  · intro url s loc hge hlt
    have hb : (decide (200 ≤ s) && decide (s < 400)) = true := by simp [hge, hlt]
    simp only [ArticleAudit.validateWrongContactPathLink]
    rw [hb]
    rfl
  · intro url s loc hge hlt
    have hb : (decide (200 ≤ s) && decide (s < 400)) = true := by simp [hge, hlt]
    simp only [ArticleAudit.validateExternalLink]
    rw [hb]
    rfl

/-- C2 witness: the amended validator policy at concrete statuses,
including article_audit's wrong-contact validator rejecting a resolved 200
and its external validator accepting a resolved 302. -/
theorem validator_status_policy_instance :
    validateDestinationLink "https://u" (.response 301 (some "https://v"))
        = ⟨false, 301, some "https://v", true, some "Redirected to: https://v"⟩ ∧
    validateDestinationLink "https://u" (.response 404 none)
        = ⟨false, 404, some "https://u", false, some (axiosHttpErrMsg 404)⟩ ∧
    ArticleAudit.validateDestinationLink "https://u" (.response 301 none)
        = ⟨true, 301, some "https://u", false, none⟩ ∧
    (ArticleAudit.validateDestinationLink "https://u" (.response 500 none)).valid = false ∧
    ArticleAudit.validateWrongContactPathLink "https://u" (.response 200 none)
        = ⟨false, 200, some "https://u", false,
            some "Wrong contact path detected - should probably be /contact instead of /contactt"⟩ ∧
    ArticleAudit.validateExternalLink "https://u" (.response 302 none)
        = ⟨true, 302, some "https://u", false, none⟩ :=
  ⟨validator_status_policy_amended.2.1 "https://u" 301 (some "https://v") (by decide),
   validator_status_policy_amended.2.2.1 "https://u" 404 none (by decide) (by decide),
   validator_status_policy_amended.2.2.2.2.2.1 "https://u" 301 none (by decide) (by decide),
   (validator_status_policy_amended.2.2.2.2.2.2.1 "https://u" 500 none (by omega)).1,
   validator_status_policy_amended.2.2.2.2.2.2.2.2.1 "https://u" 200 none (by decide) (by decide),
   validator_status_policy_amended.2.2.2.2.2.2.2.2.2 "https://u" 302 none (by decide) (by decide)⟩

/-- C3 counterexample: for `/a/tours/x1/y` the segment after `tours` is
`"x1"`, which is not purely numeric, so the claim predicts `tour-activity`;
the code's `/\d+/.test` sees the digit `1` and returns `tour-with-id`. -/
theorem tours_digit_counterexample :
    categorizeUrl "https://adventure-life.com/a/tours/x1/y" = "tour-with-id" ∧
      specToursCategory "https://adventure-life.com/a/tours/x1/y" = "tour-activity" := by
  constructor
  · decide
  · decide

/-- C10: a batch request with `urls === []` passes input validation, issues
no network call, and returns HTTP 200 with `totalUrls` 0, empty `results`
and `failures`, and `averageLinksPerUrl` 0. -/
theorem empty_batch_ok (parses : String → Bool) (crawl : String → ArticleAudit.UrlOutcome) :
    (ArticleAudit.batchEndpoint (some []) parses crawl).status = 200 ∧
    (ArticleAudit.batchEndpoint (some []) parses crawl).totalUrls = 0 ∧
    (ArticleAudit.batchEndpoint (some []) parses crawl).results = [] ∧
    (ArticleAudit.batchEndpoint (some []) parses crawl).failures = [] ∧
    (ArticleAudit.batchEndpoint (some []) parses crawl).averageLinksPerUrl = 0 ∧
    (ArticleAudit.batchEndpoint (some []) parses crawl).seedFetches = 0 :=
  ⟨rfl, rfl, rfl, rfl, rfl, rfl⟩

/-- C6: 21 URLs are rejected with HTTP 400 before any network call; 20
syntactically valid URLs proceed to processing (one seed fetch each). -/
theorem batch_size_boundary :
    (∀ (parses : String → Bool) (crawl : String → ArticleAudit.UrlOutcome)
        (urls : List String), urls.length = 21 →
      (ArticleAudit.batchEndpoint (some urls) parses crawl).status = 400 ∧
      (ArticleAudit.batchEndpoint (some urls) parses crawl).seedFetches = 0) ∧
    (∀ (parses : String → Bool) (crawl : String → ArticleAudit.UrlOutcome)
        (urls : List String), urls.length = 20 → (∀ u ∈ urls, parses u = true) →
      (ArticleAudit.batchEndpoint (some urls) parses crawl).status = 200 ∧
      (ArticleAudit.batchEndpoint (some urls) parses crawl).seedFetches = 20) := by
  constructor
  · intro parses crawl urls hlen
    simp only [ArticleAudit.batchEndpoint]
    rw [if_pos (by omega)]
    exact ⟨rfl, rfl⟩
  · intro parses crawl urls hlen hok
    have hfil : urls.filter (fun u => !(parses u)) = [] := by
      rw [List.filter_eq_nil_iff]
      intro a ha
      simp [hok a ha]
    simp only [ArticleAudit.batchEndpoint]
    rw [if_neg (by omega), hfil]
    exact ⟨rfl, by simp [hlen]⟩

/-- C6 witness: the boundary at concrete 21- and 20-element batches. -/
theorem batch_size_boundary_instance :
    ((ArticleAudit.batchEndpoint (some (List.replicate 21 "https://u"))
        (fun _ => true) (fun _ => .failed "down")).status = 400 ∧
      (ArticleAudit.batchEndpoint (some (List.replicate 21 "https://u"))
        (fun _ => true) (fun _ => .failed "down")).seedFetches = 0) ∧
    ((ArticleAudit.batchEndpoint (some (List.replicate 20 "https://u"))
        (fun _ => true) (fun _ => .failed "down")).status = 200 ∧
      (ArticleAudit.batchEndpoint (some (List.replicate 20 "https://u"))
        (fun _ => true) (fun _ => .failed "down")).seedFetches = 20) :=
  ⟨batch_size_boundary.1 _ _ _ (by decide),
   batch_size_boundary.2 _ _ _ (by decide) (fun u _ => rfl)⟩

lemma processAnchor_isSome_eq (resolve : String → String → Option String)
    (base : String) (i : Nat) (a : Anchor) :
    (processAnchor resolve base i a).isSome = keepAnchor resolve base a := by
  unfold processAnchor keepAnchor
  by_cases hs : skipHref (myTrim a.hrefAttr)
  · simp [hs]
  · simp only [hs, if_false, Bool.not_false, Bool.true_and]
    cases hr : resolveHref resolve base (myTrim a.hrefAttr) <;> simp [hr]

lemma processAnchor_position (resolve : String → String → Option String)
    (base : String) (i : Nat) (a : Anchor) (l : Link)
    (h : processAnchor resolve base i a = some l) : l.plain.position = i + 1 := by
  by_cases hs : skipHref (myTrim a.hrefAttr)
  · unfold processAnchor at h
    simp [hs] at h
  · unfold processAnchor at h
    cases hr : resolveHref resolve base (myTrim a.hrefAttr) with
    | none => simp [hs, hr] at h
    | some href =>
      simp only [hs, if_false, hr, Bool.false_eq_true] at h
      rw [← Option.some.inj h]
      rfl

lemma extractGo_cons (resolve : String → String → Option String) (base : String)
    (i : Nat) (a : Anchor) (t : List Anchor) :
    extractGo resolve base i (a :: t)
      = match processAnchor resolve base i a with
        | some l => l :: extractGo resolve base (i + 1) t
        | none => extractGo resolve base (i + 1) t := rfl

lemma enumFrom_cons {α : Type} (n : Nat) (a : α) (t : List α) :
    List.enumFrom n (a :: t) = (n, a) :: List.enumFrom (n + 1) t := rfl

lemma extractGo_positions (resolve : String → String → Option String) (base : String) :
    ∀ (as : List Anchor) (i : Nat),
      (extractGo resolve base i as).map (fun l => l.plain.position)
        = ((List.enumFrom (i + 1) as).filter
            (fun p => keepAnchor resolve base p.2)).map Prod.fst := by
  intro as
  induction as with
  | nil => intro i; rfl
  | cons a t ih =>
    intro i
    rw [extractGo_cons, enumFrom_cons]
    cases hl : processAnchor resolve base i a with
    | some l =>
      have hk : keepAnchor resolve base a = true := by
        rw [← processAnchor_isSome_eq resolve base i a, hl]
        rfl
      have hpos := processAnchor_position resolve base i a l hl
      rw [List.filter_cons_of_pos (by simpa using hk)]
      simp only [List.map_cons, hpos]
      rw [ih (i + 1)]
    | none =>
      have hk : keepAnchor resolve base a = false := by
        rw [← processAnchor_isSome_eq resolve base i a, hl]
        rfl
      rw [List.filter_cons_of_neg (by simp [hk])]
      exact ih (i + 1)

/-- C8 (amended): a produced link's `position` is `i + 1` where `i` is the
anchor's index in the region's full `a[href]` matched set — skipped anchors
(empty/`#`/`javascript:`/malformed hrefs) still occupy an index, so the
output positions are the (1-based) indices of the KEPT anchors, with gaps
after skipped ones, not a gapless 1..k numbering of the output list. -/
theorem positions_index_amended (anchors : List Anchor) (base : String)
    (resolve : String → String → Option String) :
    (extractLinks anchors base resolve).map (fun l => l.plain.position)
      = ((List.enumFrom 1 anchors).filter
          (fun p => keepAnchor resolve base p.2)).map Prod.fst := by
  have := extractGo_positions resolve base anchors 0
  simpa using this

/-! ### Association-list (JS `Map`) lemmas -/

lemma lookupLast_fold_mem {β : Type} (k : String) :
    ∀ (xs : List (String × β)) (acc : Option β) (v : β),
      xs.foldl (fun acc p => if p.1 == k then some p.2 else acc) acc = some v →
      acc = some v ∨ (k, v) ∈ xs := by
  intro xs
  induction xs with
  | nil => intro acc v h; exact Or.inl h
  | cons a t ih =>
    intro acc v h
    rw [List.foldl_cons] at h
    rcases ih _ v h with h2 | h2
    · by_cases hk : a.1 == k
      · rw [if_pos hk] at h2
        right
        have h1 : a.1 = k := eq_of_beq hk
        have h3 : a.2 = v := Option.some.inj h2
        rw [← h1, ← h3]
        exact List.mem_cons_self a t
      · rw [if_neg hk] at h2
        exact Or.inl h2
    · exact Or.inr (List.mem_cons_of_mem a h2)

lemma lookupLast_mem {β : Type} (xs : List (String × β)) (k : String) (v : β)
    (h : lookupLast xs k = some v) : (k, v) ∈ xs := by
  rcases lookupLast_fold_mem k xs none v h with h2 | h2
  · exact absurd h2 (by simp)
  · exact h2

lemma lookupLast_fold_some_acc {β : Type} (k : String) :
    ∀ (xs : List (String × β)) (w : β),
      ∃ w2, xs.foldl (fun acc p => if p.1 == k then some p.2 else acc) (some w) = some w2 := by
  intro xs
  induction xs with
  | nil => intro w; exact ⟨w, rfl⟩
  | cons a t ih =>
    intro w
    rw [List.foldl_cons]
    by_cases hk : a.1 == k
    · rw [if_pos hk]; exact ih a.2
    · rw [if_neg hk]; exact ih w

lemma lookupLast_isSome_of_mem {β : Type} (k : String) (v : β) :
    ∀ (xs : List (String × β)), (k, v) ∈ xs → ∃ w, lookupLast xs k = some w := by
  intro xs
  induction xs with
  | nil => intro h; exact absurd h (by simp)
  | cons a t ih =>
    intro h
    unfold lookupLast
    rw [List.foldl_cons]
    by_cases hk : a.1 == k
    · rw [if_pos hk]
      exact lookupLast_fold_some_acc k t a.2
    · rw [if_neg hk]
      rcases List.mem_cons.mp h with h2 | h2
      · exfalso
        apply hk
        rw [← h2]
        simp
      · exact ih h2

lemma lookupLast_eq_of_coh {β : Type} (xs : List (String × β))
    (hcoh : ∀ e1, e1 ∈ xs → ∀ e2, e2 ∈ xs → e1.1 = e2.1 → e1.2 = e2.2)
    (k : String) (v : β) (hm : (k, v) ∈ xs) : lookupLast xs k = some v := by
  obtain ⟨w, hw⟩ := lookupLast_isSome_of_mem k v xs hm
  have hmw : (k, w) ∈ xs := lookupLast_mem xs k w hw
  have hvw : v = w := hcoh (k, v) hm (k, w) hmw rfl
  rw [hw, ← hvw]

lemma lookupLast_congr {β : Type} (xs ys : List (String × β))
    (hmem : ∀ e, e ∈ xs ↔ e ∈ ys)
    (hcoh : ∀ e1, e1 ∈ xs → ∀ e2, e2 ∈ xs → e1.1 = e2.1 → e1.2 = e2.2)
    (k : String) : lookupLast xs k = lookupLast ys k := by
  have hcoh2 : ∀ e1, e1 ∈ ys → ∀ e2, e2 ∈ ys → e1.1 = e2.1 → e1.2 = e2.2 := by
    intro e1 h1 e2 h2 hk
    exact hcoh e1 ((hmem e1).mpr h1) e2 ((hmem e2).mpr h2) hk
  cases hx : lookupLast xs k with
  | some v =>
    exact (lookupLast_eq_of_coh ys hcoh2 k v
      ((hmem _).mp (lookupLast_mem xs k v hx))).symm
  | none =>
    cases hy : lookupLast ys k with
    | none => rfl
    | some w =>
      obtain ⟨w2, hw2⟩ :=
        lookupLast_isSome_of_mem k w xs ((hmem _).mpr (lookupLast_mem ys k w hy))
      rw [hx] at hw2
      exact absurd hw2 (by simp)

lemma lookupLast_append_pair {β : Type} (xs : List (String × β)) (r : String × β)
    (k : String) : lookupLast (xs ++ [r, r]) k = lookupLast (xs ++ [r]) k := by
  unfold lookupLast
  rw [List.foldl_append, List.foldl_append]
  simp only [List.foldl_cons, List.foldl_nil]
  by_cases hk : r.1 == k <;> simp [hk]

/-! ### Projection identities of the merge steps -/

lemma applyValidation_audit (m : List (String × VRes)) (l : Link) :
    (applyValidation m l).audit = mergeV (lookupLast m l.plain.href) l.audit := rfl

lemma applyAvailability_audit (m : List (String × ARes)) (l : Link) :
    (applyAvailability m l).audit = mergeA (lookupLast m l.plain.href) l.audit := rfl

lemma mergeA_valid (e : Option ARes) (a : AuditFields) : (mergeA e a).valid = a.valid := by
  cases e with
  | none => rfl
  | some r => cases r <;> rfl

lemma mergeV_vres_available (t : VTag) (r : ValidationResult) (a : AuditFields) :
    (mergeV (some (.vres t r)) a).available = a.available := rfl

/-- C5 counterexample: the merge is keyed by href with last-write-wins, so
applying the same two results for one href in the two possible orders
yields different link records (`valid` false vs true). -/
theorem merge_order_counterexample :
    (applyValidation [rT, rF] (mkExtractedLink dupRaw)).audit.valid = JsVal.val false ∧
    (applyValidation [rF, rT] (mkExtractedLink dupRaw)).audit.valid = JsVal.val true ∧
    applyValidation [rT, rF] (mkExtractedLink dupRaw)
      ≠ applyValidation [rF, rT] (mkExtractedLink dupRaw) := by
  refine ⟨by decide, by decide, by decide⟩

/-- C5 (amended): the merge is keyed by href, so two links sharing an href
receive identical merged outcome fields (validation and availability);
applying an identical result twice is a no-op; and result application is
order-independent PROVIDED all results for one href carry equal data — with
conflicting duplicate results the last write wins and order matters (see
the counterexample). -/
theorem href_merge_amended :
    (∀ (m : List (String × VRes)) (raw1 raw2 : RawLink), raw1.href = raw2.href →
      (applyValidation m (mkExtractedLink raw1)).audit
        = (applyValidation m (mkExtractedLink raw2)).audit) ∧
    (∀ (vm : List (String × VRes)) (am : List (String × ARes)) (raw1 raw2 : RawLink),
      raw1.href = raw2.href →
      (applyAvailability am (applyValidation vm (mkExtractedLink raw1))).audit
        = (applyAvailability am (applyValidation vm (mkExtractedLink raw2))).audit) ∧
    (∀ (xs : List (String × VRes)) (r : String × VRes) (l : Link),
      applyValidation (xs ++ [r, r]) l = applyValidation (xs ++ [r]) l) ∧
    (∀ (xs : List (String × ARes)) (r : String × ARes) (l : Link),
      applyAvailability (xs ++ [r, r]) l = applyAvailability (xs ++ [r]) l) ∧
    (∀ (xs ys : List (String × VRes)) (l : Link),
      (∀ e, e ∈ xs ↔ e ∈ ys) →
      (∀ e1, e1 ∈ xs → ∀ e2, e2 ∈ xs → e1.1 = e2.1 → e1.2 = e2.2) →
      applyValidation xs l = applyValidation ys l) := by
  refine ⟨?_, ?_, ?_, ?_, ?_⟩
  · intro m raw1 raw2 h
    show mergeV (lookupLast m raw1.href) (placeholderFields (categorizeUrl raw1.href))
      = mergeV (lookupLast m raw2.href) (placeholderFields (categorizeUrl raw2.href))
    rw [h]
  · intro vm am raw1 raw2 h
    show mergeA (lookupLast am raw1.href)
        (mergeV (lookupLast vm raw1.href) (placeholderFields (categorizeUrl raw1.href)))
      = mergeA (lookupLast am raw2.href)
        (mergeV (lookupLast vm raw2.href) (placeholderFields (categorizeUrl raw2.href)))
    rw [h]
  · intro xs r l
    unfold applyValidation
    rw [lookupLast_append_pair]
  · intro xs r l
    unfold applyAvailability
    rw [lookupLast_append_pair]
  · intro xs ys l hmem hcoh
    unfold applyValidation
    rw [lookupLast_congr xs ys hmem hcoh]

/-- C5 witness: the amended merge properties at concrete inputs. -/
theorem href_merge_instance :
    (applyValidation [rT] (mkExtractedLink dupRaw)).audit
      = (applyValidation [rT] (mkExtractedLink dupRaw2)).audit ∧
    (applyAvailability [aR] (applyValidation [rT] (mkExtractedLink dupRaw))).audit
      = (applyAvailability [aR] (applyValidation [rT] (mkExtractedLink dupRaw2))).audit ∧
    applyValidation ([rF] ++ [rT, rT]) (mkExtractedLink dupRaw)
      = applyValidation ([rF] ++ [rT]) (mkExtractedLink dupRaw) ∧
    applyAvailability ([] ++ [aR, aR]) (mkExtractedLink dupRaw)
      = applyAvailability ([] ++ [aR]) (mkExtractedLink dupRaw) ∧
    applyValidation [rT, rT] (mkExtractedLink dupRaw)
      = applyValidation [rT] (mkExtractedLink dupRaw) :=
  ⟨href_merge_amended.1 [rT] dupRaw dupRaw2 rfl,
   href_merge_amended.2.1 [rT] [aR] dupRaw dupRaw2 rfl,
   href_merge_amended.2.2.1 [rF] rT _,
   href_merge_amended.2.2.2.1 [] aR _,
   href_merge_amended.2.2.2.2 [rT, rT] [rT] _
     (by intro e; simp)
     (by
       intro e1 h1 e2 h2 _
       simp only [List.mem_cons, List.not_mem_nil, or_false, or_self] at h1 h2
       rw [h1, h2])⟩

/-! ### C1: availability vs validity across the pipeline -/

lemma vblock_mem {links : List Link} {p : Link → Bool} {f : Link → VRes}
    {h : String} {v : VRes} (hm : (h, v) ∈ vblock links p f) :
    ∃ l, l ∈ links ∧ p l = true ∧ l.plain.href = h ∧ v = f l := by
  simp only [vblock, List.mem_map, List.mem_filter] at hm
  obtain ⟨l, ⟨hl, hp⟩, heq⟩ := hm
  obtain ⟨h1, h2⟩ := Prod.mk.injEq _ _ _ _ |>.mp heq
  exact ⟨l, hl, hp, h1, h2.symm⟩

lemma ablock_mem {links : List Link} {p : Link → Bool} {f : Link → ARes}
    {h : String} {a : ARes} (hm : (h, a) ∈ ablock links p f) :
    ∃ l, l ∈ links ∧ p l = true ∧ l.plain.href = h ∧ a = f l := by
  simp only [ablock, List.mem_map, List.mem_filter] at hm
  obtain ⟨l, ⟨hl, hp⟩, heq⟩ := hm
  obtain ⟨h1, h2⟩ := Prod.mk.injEq _ _ _ _ |>.mp heq
  exact ⟨l, hl, hp, h1, h2.symm⟩

/-- Only the cruise-with-id block produces `VRes.cruise` entries, and only
from links whose category is `cruise-with-id`. -/
lemma cruise_entry_category {links : List Link} {net : Net} {h : String}
    {r : CruiseResult} (hm : (h, VRes.cruise r) ∈ mkValidationResults links net) :
    ∃ l, l ∈ links ∧ l.plain.category = "cruise-with-id" ∧ l.plain.href = h := by
  simp only [mkValidationResults, List.mem_append, or_assoc] at hm
  rcases hm with hm | hm | hm | hm | hm | hm | hm | hm | hm | hm
  · obtain ⟨l, hl, hp, hh, _⟩ := vblock_mem hm
    exact ⟨l, hl, eq_of_beq hp, hh⟩
  all_goals
    obtain ⟨l, hl, hp, hh, hv⟩ := vblock_mem hm
    exact VRes.noConfusion hv

/-- Every availability-map entry originates from a link that passed the
`valid === true` filter. -/
lemma avail_entry_valid {links : List Link} {net : Net} {url : String}
    {h : String} {a : ARes} (hm : (h, a) ∈ mkAvailabilityResults links net url) :
    ∃ l, l ∈ links ∧ l.plain.href = h ∧ l.audit.valid = JsVal.val true := by
  simp only [mkAvailabilityResults, List.mem_append, or_assoc] at hm
  rcases hm with hm | hm | hm | hm | hm | hm
  all_goals
    obtain ⟨l, hl, hp, hh, _⟩ := ablock_mem hm
    refine ⟨l, hl, hh, ?_⟩
    unfold catValid at hp
    rw [Bool.and_eq_true] at hp
    exact eq_of_beq hp.2

lemma placeholder_available_null :
    ∀ c ∈ checkerValidatedCategories, (placeholderFields c).available = JsVal.null := by
  intro c hc
  simp only [checkerValidatedCategories, List.mem_cons, List.not_mem_nil, or_false] at hc
  rcases hc with rfl | rfl | rfl | rfl | rfl | rfl <;> rfl

/-- C1 (amended): for every category that has both a Validator and a
Checker (tour-with-id, tour-activity, cruise-ship, story-name,
contact-page, external-link) the Checker is scheduled only for links whose
Validator reported `valid === true`, so `available !== null` in the output
implies `valid === true`.  It does NOT hold for cruise-with-id, whose
availability check runs unconditionally during the validation phase with no
Validator at all (see the counterexample). -/
theorem availability_requires_validity (targetUrl : String) (raws : List RawLink)
    (net : Net) (l : Link) (b : Bool)
    (hmem : l ∈ runAudit targetUrl raws net)
    (hcat : l.plain.category ∈ checkerValidatedCategories)
    (hav : l.audit.available = JsVal.val b) :
    l.audit.valid = JsVal.val true := by
  simp only [runAudit] at hmem
  obtain ⟨l2, hl2, rfl⟩ := List.mem_map.mp hmem
  obtain ⟨l1, hl1, rfl⟩ := List.mem_map.mp hl2
  obtain ⟨raw, hraw, rfl⟩ := List.mem_map.mp hl1
  have hcat2 : categorizeUrl raw.href ∈ checkerValidatedCategories := hcat
  cases he : lookupLast (mkAvailabilityResults
      ((raws.map mkExtractedLink).map
        (applyValidation (mkValidationResults (raws.map mkExtractedLink) net)))
      net targetUrl) raw.href with
  | none =>
    exfalso
    have hav2 : (mergeA (lookupLast (mkAvailabilityResults
        ((raws.map mkExtractedLink).map
          (applyValidation (mkValidationResults (raws.map mkExtractedLink) net)))
        net targetUrl) raw.href)
        (mergeV (lookupLast (mkValidationResults (raws.map mkExtractedLink) net) raw.href)
          (placeholderFields (categorizeUrl raw.href)))).available = JsVal.val b := hav
    rw [he] at hav2
    have hav3 : (mergeV (lookupLast (mkValidationResults (raws.map mkExtractedLink) net)
        raw.href) (placeholderFields (categorizeUrl raw.href))).available
          = JsVal.val b := hav2
    cases hv : lookupLast (mkValidationResults (raws.map mkExtractedLink) net) raw.href with
    | none =>
      rw [hv] at hav3
      have hnull := placeholder_available_null _ hcat2
      have : JsVal.null = JsVal.val b := by
        rw [← hnull]
        exact hav3
      exact JsVal.noConfusion this
    | some v =>
      cases v with
      | vres t r =>
        rw [hv, mergeV_vres_available] at hav3
        have hnull := placeholder_available_null _ hcat2
        have : JsVal.null = JsVal.val b := by
          rw [← hnull]
          exact hav3
        exact JsVal.noConfusion this
      | cruise r =>
        have hm2 : (raw.href, VRes.cruise r)
            ∈ mkValidationResults (raws.map mkExtractedLink) net :=
          lookupLast_mem _ _ _ hv
        obtain ⟨lc, hlc, hcatc, hhrefc⟩ := cruise_entry_category hm2
        obtain ⟨rawc, hrawc, rfl⟩ := List.mem_map.mp hlc
        have h5 : categorizeUrl rawc.href = "cruise-with-id" := hcatc
        have h6 : rawc.href = raw.href := hhrefc
        rw [h6] at h5
        rw [h5] at hcat2
        exact absurd hcat2 (by decide)
  | some a =>
    have hvm : (raw.href, a) ∈ mkAvailabilityResults
        ((raws.map mkExtractedLink).map
          (applyValidation (mkValidationResults (raws.map mkExtractedLink) net)))
        net targetUrl :=
      lookupLast_mem _ _ _ he
    obtain ⟨l3, hl3, hh3, hvalid3⟩ := avail_entry_valid hvm
    obtain ⟨l3b, hl3b, rfl⟩ := List.mem_map.mp hl3
    obtain ⟨raw3, hraw3, rfl⟩ := List.mem_map.mp hl3b
    have h7 : raw3.href = raw.href := hh3
    have h8 : (applyValidation (mkValidationResults (raws.map mkExtractedLink) net)
        (mkExtractedLink raw3)).audit
        = (applyValidation (mkValidationResults (raws.map mkExtractedLink) net)
          (mkExtractedLink raw)).audit := by
      show mergeV (lookupLast (mkValidationResults (raws.map mkExtractedLink) net) raw3.href)
          (placeholderFields (categorizeUrl raw3.href))
        = mergeV (lookupLast (mkValidationResults (raws.map mkExtractedLink) net) raw.href)
          (placeholderFields (categorizeUrl raw.href))
      rw [h7]
    show (mergeA (lookupLast (mkAvailabilityResults
        ((raws.map mkExtractedLink).map
          (applyValidation (mkValidationResults (raws.map mkExtractedLink) net)))
        net targetUrl) raw.href)
        (applyValidation (mkValidationResults (raws.map mkExtractedLink) net)
          (mkExtractedLink raw)).audit).valid = JsVal.val true
    rw [mergeA_valid, ← h8]
    exact hvalid3

/-- C1 witness: a valid tour-activity link whose availability check ran and
whose output shows `available` set and `valid === true`. -/
theorem availability_requires_validity_instance :
    c1witnessLink.audit.valid = JsVal.val true :=
  availability_requires_validity "https://adventure-life.com" [activityRaw] activityNet
    c1witnessLink true (by decide) (by decide) (by decide)

/-- C1 counterexample: a cruise-with-id link gets `available` set (to a
non-null value) by the availability check scheduled in the VALIDATION
phase, while `valid` is never set at all (cruise-with-id has no Validator):
`available !== null` holds with no prior `valid === true`. -/
theorem avail_without_validity_cruise :
    (runAudit "https://adventure-life.com" [cruiseRaw] cruiseNet).map
        (fun l => (l.plain.category, l.audit.available, l.audit.valid))
      = [("cruise-with-id", JsVal.val true, JsVal.absent)] := by
  decide

/-- C8 counterexample: a region whose first anchor has `href="#"` (skipped)
and whose second is kept yields one link with `position` 2 — the claim's
gapless numbering would give `position` 1. -/
theorem position_gap_counterexample :
    (extractLinks [hashAnchor, realAnchor] "https://e.com" (fun _ _ => none)).map
        (fun l => l.plain.position) = [2] ∧
    (extractLinks [hashAnchor, realAnchor] "https://e.com" (fun _ _ => none)).map
        (fun l => l.plain.position) ≠ [1] := by
  constructor
  · decide
  · decide

end Audit
